import Mathlib

/-!
# Verification of the Harshi-App conversion pipeline and structural validator

A shallow embedding of `scripts/convert_to_csv.py` and
`scripts/validate_structure.py`.

Worksheet row records (Python dicts keyed by header names) are modelled as
association lists `List (String × String)`; the Python dict primitives
(`d.get(k, default)`, `k in d`, `d[k] = v`) are modelled by `alookup`,
`dictGet`, `hasKey` and `dictInsert`, keeping Python's insertion-order
semantics (an update of an existing key keeps its position, a new key is
appended at the end).  Filesystem state is passed explicitly; exceptions at
a component boundary are modelled by `Option` / `Except` inputs.  All
definitions are executable.
-/

namespace HarshiApp

/-- Association-list lookup, the model of a Python dict access.  All
records built by the pipeline have unique keys, so first-match lookup
agrees with Python dict semantics. -/
def alookup {α : Type} : List (String × α) → String → Option α
  | [], _ => none
  | (k, v) :: rest, key => if k = key then some v else alookup rest key

/-- A worksheet row record: field name → cell text (a Python dict). -/
abbrev Record := List (String × String)

/-- Model of Python `d.get(k, default)`. -/
def dictGet (r : Record) (k d : String) : String := (alookup r k).getD d

/-- Model of Python `k in d`. -/
def hasKey {α : Type} (r : List (String × α)) (k : String) : Bool :=
  (alookup r k).isSome

/-- Model of Python `d[k] = v`: overwrite in place when the key exists
(keeping its position), otherwise append at the end. -/
def dictInsert {α : Type} : List (String × α) → String → α → List (String × α)
  | [], k, v => [(k, v)]
  | (k', v') :: rest, k, v =>
    if k' = k then (k, v) :: rest else (k', v') :: dictInsert rest k v

/-- Model of Python `str.strip()` (used by `clean_cell_value`). -/
def pyStrip (s : String) : String :=
  String.mk (((s.data.dropWhile Char.isWhitespace).reverse.dropWhile
    Char.isWhitespace).reverse)

/-- Model of Python `str.replace(old, new)` for a one-character `old`,
the only shape the scripts use (space→underscore, hyphen→space,
underscore→space, apostrophe→nothing). -/
def replaceChar (s : String) (c : Char) (r : String) : String :=
  String.mk (s.data.foldr (fun a acc => if a = c then r.data ++ acc else a :: acc) [])

/-- The apostrophe character (code point 39). -/
def apos : Char := Char.ofNat 39

/-- The folder-naming rule used throughout `convert_to_csv.py`:
`name.replace(' ', '_').replace("'", "")`. -/
def folderSlug (name : String) : String :=
  replaceChar (replaceChar name ' ' "_") apos ""

/-- Worker for `pyTitle`: the flag records whether the previous character
was a letter. -/
def titleGo : Bool → List Char → List Char
  | _, [] => []
  | prevAlpha, c :: cs =>
    if c.isAlpha then
      (if prevAlpha then c.toLower else c.toUpper) :: titleGo true cs
    else c :: titleGo false cs

/-- Model of Python `str.title()` over ASCII text: the first letter of
every maximal run of letters is uppercased, the rest lowercased. -/
def pyTitle (s : String) : String := String.mk (titleGo false s.data)

/-- Model of Python `a or b` on strings: the empty string is falsy. -/
def pyOr (a b : String) : String := if a = "" then b else a

/-! ## SheetReader: `read_excel_sheet` -/

/-- A worksheet: `headerRow` is `ws[1]`, `dataRows` is
`ws.iter_rows(min_row=2, values_only=True)`.  A cell is `Option String`
(`none` is an empty cell / Python `None`). -/
structure Worksheet where
  headerRow : List (Option String)
  dataRows : List (List (Option String))
deriving DecidableEq

/-- A workbook: named sheets (`wb.sheetnames` / `wb[name]`). -/
structure Workbook where
  sheets : List (String × Worksheet)
deriving DecidableEq

/-- `clean_cell_value`: `None` becomes `""`; otherwise the value is
stripped and the literal text `"None"` also becomes `""`. -/
def clean_cell_value : Option String → String
  | none => ""
  | some s => let v := pyStrip s; if v = "None" then "" else v

/-- One data row into a dict:
`for i, value in enumerate(row): if i < len(headers) and headers[i]:
row_dict[headers[i]] = clean_cell_value(value)`.  `List.zip` truncates to
the shorter list, matching the `i < len(headers)` bound. -/
def rowDict (headers : List String) (row : List (Option String)) : Record :=
  (List.zip headers row).foldl
    (fun d p => if p.1 = "" then d else dictInsert d p.1 (clean_cell_value p.2)) []

/-- The body of `read_excel_sheet` once the workbook and sheet are open:
clean the header row, build one dict per data row, keep only rows with at
least one non-empty value (`if any(row_dict.values())`). -/
def parseSheet (ws : Worksheet) : List Record :=
  let headers := ws.headerRow.map clean_cell_value
  ws.dataRows.filterMap (fun row =>
    let r := rowDict headers row
    if r.any (fun p => p.2 != "") then some r else none)

/-- `read_excel_sheet`: the surrounding `try` is modelled by taking an
`Option Workbook` (`none` = `load_workbook` raised).  A missing sheet name
returns `[]` after a warning and the exception handler returns `[]`, so
the caller always receives a (possibly empty) list. -/
def read_excel_sheet : Option Workbook → String → List Record
  | none, _ => []
  | some wb, sheetName =>
    match alookup wb.sheets sheetName with
    | none => []
    | some ws => parseSheet ws

/-! ## CsvWriter: `write_csv` -/

/-- One CSV cell row for a record under `csv.DictWriter` with the given
`fieldnames`, `extrasaction='ignore'` and the default `restval=''`:
declared fields in the given order, absent fields written as `""`,
undeclared fields on the record dropped. -/
def renderRow (fieldnames : List String) (r : Record) : List String :=
  fieldnames.map (fun f => dictGet r f "")

/-- The full CSV contents: `writeheader()` then `writerows(data)`. -/
def renderCsv (fieldnames : List String) (data : List Record) : List (List String) :=
  fieldnames :: data.map (renderRow fieldnames)

/-- Filesystem state for `write_csv`: path → CSV rows. -/
abbrev FS := List (String × List (List String))

/-- `open(path, 'w')` plus write: replace the file's contents wholesale,
creating the file when absent. -/
def setFile : FS → String → List (List String) → FS
  | [], p, c => [(p, c)]
  | (q, c') :: rest, p, c =>
    if q = p then (p, c) :: rest else (q, c') :: setFile rest p c

/-- `write_csv(file_path, data, fieldnames)` acting on a filesystem state:
empty `data` logs a warning and returns without touching the filesystem;
otherwise the rendered CSV replaces whatever was at the path. -/
def write_csv (fs : FS) (path : String) (data : List Record) (fieldnames : List String) : FS :=
  if data = [] then fs else setFile fs path (renderCsv fieldnames data)

/-! ## ContentGrouper: `convert_quiz_questions` and `convert_study_content` -/

/-- Grouping dict state `by_topic`: topic_id → accumulated rows,
insertion-ordered. -/
abbrev Groups := List (String × List Record)

/-- `by_topic[t].append(x)`, creating `by_topic[t] = []` first when the
key is absent: an existing key keeps its position, a new key is appended
at the end. -/
def addToGroup : Groups → String → Record → Groups
  | [], t, x => [(t, [x])]
  | (k, xs) :: rest, t, x =>
    if k = t then (k, xs ++ [x]) :: rest else (k, xs) :: addToGroup rest t x

/-- The group accumulated for a topic (`[]` when the key is absent). -/
def lookupGroup (g : Groups) (t : String) : List Record := (alookup g t).getD []

/-- `row.get('topic_id', '')`. -/
def topicOf (r : Record) : String := dictGet r "topic_id" ""

/-- One grouping loop of `convert_quiz_questions` / `convert_study_content`:
rows with an empty `topic_id` are skipped (`if not topic_id: continue`);
every other row is mapped by `valOf` and appended to its topic's group. -/
def groupFold (valOf : Record → Record) : Groups → List Record → Groups
  | g, [] => g
  | g, r :: rs =>
    groupFold valOf (if topicOf r = "" then g else addToGroup g (topicOf r) (valOf r)) rs

/-- The `fieldnames` list of `convert_quiz_questions`. -/
def quizFieldnames : List String :=
  ["question_id", "topic_id", "question_text", "option_a", "option_b",
   "option_c", "option_d", "correct_answer", "explanation", "difficulty",
   "hint", "xp_reward"]

/-- `by_topic` after the grouping loop of `convert_quiz_questions`
(questions are grouped unchanged). -/
def quizGroups (quizData : List Record) : Groups := groupFold id [] quizData

/-- The `questions.csv` rows `convert_quiz_questions` writes for one
topic's group. -/
def quizCsvFor (quizData : List Record) (t : String) : List (List String) :=
  renderCsv quizFieldnames (lookupGroup (quizGroups quizData) t)

/-- The normalized shape a `Study_Content` row is mapped to in
`convert_study_content`. -/
def mapStudyItem (item : Record) : Record :=
  [("content_id", dictGet item "content_id" ""),
   ("content_type", dictGet item "content_type" "text"),
   ("title", dictGet item "content_title" ""),
   ("content", dictGet item "content_text" ""),
   ("url", pyOr (dictGet item "video_url" "") (dictGet item "image_url" "")),
   ("order_index", dictGet item "order_index" "")]

/-- The normalized shape a `Formulas` row is mapped to. -/
def mapFormulaItem (formula : Record) : Record :=
  [("content_id", dictGet formula "formula_id" ""),
   ("content_type", "formula"),
   ("title", dictGet formula "formula_label" ""),
   ("content", dictGet formula "formula_text" ""),
   ("url", ""),
   ("order_index", dictGet formula "order_index" "")]

/-- The normalized shape a `Key_Terms` row is mapped to. -/
def mapKeyTermItem (term : Record) : Record :=
  [("content_id", dictGet term "term_id" ""),
   ("content_type", "key_term"),
   ("title", dictGet term "term" ""),
   ("content", dictGet term "definition" ""),
   ("url", ""),
   ("order_index", "")]

/-- `by_topic` after the three grouping loops of `convert_study_content`,
in program order: `Study_Content`, then `Formulas`, then `Key_Terms`. -/
def studyGroups (studyContent formulas keyTerms : List Record) : Groups :=
  groupFold mapKeyTermItem
    (groupFold mapFormulaItem
      (groupFold mapStudyItem [] studyContent) formulas) keyTerms

/-- The topic folder computation in the write loop of
`convert_study_content`: title-case the topic_id with hyphens and
underscores turned into spaces, let a `topic_name` field on the first item
override it when present, then slugify. -/
def studyTopicFolder (contentItems : List Record) (topicId : String) : String :=
  let tname := pyTitle (replaceChar (replaceChar topicId '-' " ") '_' " ")
  let tname :=
    match contentItems with
    | [] => tname
    | first :: _ => if hasKey first "topic_name" then dictGet first "topic_name" tname else tname
  folderSlug tname

/-! ## MasterIndexBuilder: `get_subject_topic_mapping` and
`create_master_indices` -/

/-- The dict comprehension of `get_subject_topic_mapping` over the
Subjects sheet: rows missing `subject_key` or `name` are skipped. -/
def buildSubjects (subjectsData : List Record) : List (String × String) :=
  subjectsData.foldl
    (fun acc s =>
      if hasKey s "subject_key" && hasKey s "name" then
        dictInsert acc (dictGet s "subject_key" "") (dictGet s "name" "")
      else acc) []

/-- `mapping[subject_key][topic_id] = topic_name` with on-demand creation
of the inner dict (`if subject_key not in mapping: mapping[subject_key] = {}`). -/
def nestedInsert :
    List (String × List (String × String)) → String → String → String →
    List (String × List (String × String))
  | [], sk, tid, tname => [(sk, [(tid, tname)])]
  | (k, inner) :: rest, sk, tid, tname =>
    if k = sk then (k, dictInsert inner tid tname) :: rest
    else (k, inner) :: nestedInsert rest sk tid tname

/-- One iteration of the Topics loop in `get_subject_topic_mapping`: rows
missing any of `subject_key`, `topic_id`, `topic_name` are skipped. -/
def topicStep (m : List (String × List (String × String))) (topic : Record) :
    List (String × List (String × String)) :=
  if hasKey topic "subject_key" = false || hasKey topic "topic_id" = false
      || hasKey topic "topic_name" = false then m
  else
    nestedInsert m (dictGet topic "subject_key" "") (dictGet topic "topic_id" "")
      (dictGet topic "topic_name" "")

/-- The `mapping` built by `get_subject_topic_mapping` from the Topics
sheet rows. -/
def buildMapping (topicsData : List Record) : List (String × List (String × String)) :=
  topicsData.foldl topicStep []

/-- One flattened master-index row of `create_master_indices`. -/
structure IndexRow where
  subject_key : String
  subject_name : String
  topic_id : String
  topic_name : String
  topic_folder : String
deriving DecidableEq

/-- The inner loop of `create_master_indices` for one subject entry:
`subject_name = subjects.get(subject_key, subject_key)` and
`topic_folder = topic_name.replace(' ', '_').replace("'", "")`. -/
def rowsForSubject (subjects : List (String × String)) (sk : String)
    (topics : List (String × String)) : List IndexRow :=
  topics.map (fun p =>
    { subject_key := sk
      subject_name := (alookup subjects sk).getD sk
      topic_id := p.1
      topic_name := p.2
      topic_folder := folderSlug p.2 })

/-- `index_data` as built by `create_master_indices` (the same row list is
written to the three output roots). -/
def create_master_indices (subjects : List (String × String)) :
    List (String × List (String × String)) → List IndexRow
  | [] => []
  | (sk, topics) :: rest =>
    rowsForSubject subjects sk topics ++ create_master_indices subjects rest

/-! ## StructureValidator: `validate_structure.py` -/

/-- The `stats` sub-dict of the report. -/
structure Stats where
  files_checked : Nat
  valid_files : Nat
  invalid_files : Nat
deriving DecidableEq

/-- The module-level `report` dict. -/
structure Report where
  status : String
  errors : List String
  warnings : List String
  stats : Stats
deriving DecidableEq

/-- The initial value of the module-level `report`. -/
def initialReport : Report :=
  { status := "success", errors := [], warnings := [], stats := ⟨0, 0, 0⟩ }

/-- `log_error(msg, path)`: append a formatted entry to `errors` and set
`status` to `"failed"`. -/
def log_error (msg : String) (path : Option String) (r : Report) : Report :=
  let entry := "[ERROR] " ++ msg ++
    (match path with | some p => " (" ++ p ++ ")" | none => "")
  { r with errors := r.errors ++ [entry], status := "failed" }

/-- `log_warn(msg, path)`: append a formatted entry to `warnings`;
`status` is untouched. -/
def log_warn (msg : String) (path : Option String) (r : Report) : Report :=
  let entry := "[WARN] " ++ msg ++
    (match path with | some p => " (" ++ p ++ ")" | none => "")
  { r with warnings := r.warnings ++ [entry] }

/-- Every report-mutating operation performed anywhere in
`validate_structure.py`: `log_error`, `log_warn`, and the two stats
increments (`files_checked += n`, `valid_files += n`). -/
inductive ReportOp where
  | logErrorOp : String → Option String → ReportOp
  | logWarnOp : String → Option String → ReportOp
  | addFilesChecked : Nat → ReportOp
  | addValidFiles : Nat → ReportOp

/-- Apply one report-mutating operation. -/
def applyOp (r : Report) : ReportOp → Report
  | ReportOp.logErrorOp m p => log_error m p r
  | ReportOp.logWarnOp m p => log_warn m p r
  | ReportOp.addFilesChecked n =>
    { r with stats := { r.stats with files_checked := r.stats.files_checked + n } }
  | ReportOp.addValidFiles n =>
    { r with stats := { r.stats with valid_files := r.stats.valid_files + n } }

/-- An entry of `list(pages_dir.glob("*"))`: its final name and its
`pathlib` suffix (with the leading dot; empty when there is none). -/
structure FileEntry where
  name : String
  suffix : String
deriving DecidableEq

/-- The filesystem facts `validate_studyguide` queries about one topic's
`studyguide` folder. -/
structure SGDir where
  pagesExists : Bool
  indexAtRoot : Bool
  indexInPages : Bool
  pagesFiles : List FileEntry

/-- The extension allow-list of the nomenclature check. -/
def allowedSuffixes : List String := [".csv", ".pdf", ".docx", ".doc", ".jpg", ".png"]

/-- One iteration of the nomenclature loop of `validate_studyguide`: skip
`index.csv`, warn on an unknown extension, count a recognized file. -/
def sgLoop (path : String) (acc : Report × Nat) (f : FileEntry) : Report × Nat :=
  if f.name = "index.csv" then acc
  else if allowedSuffixes.contains f.suffix = false then
    (log_warn ("Stray or unknown file type: " ++ f.name)
      (some (path ++ "/Pages/" ++ f.name)) acc.1, acc.2)
  else (acc.1, acc.2 + 1)

/-- The index-manifest check of `validate_studyguide`: `index.csv` is
looked for directly under `studyguide` first, then under
`studyguide/Pages`; an error is logged only when both are absent. -/
def indexCheck (d : SGDir) (path : String) (r : Report) : Report :=
  if d.indexAtRoot then r
  else if d.indexInPages then r
  else log_error "Missing \x27index.csv\x27 map for studyguide pages" (some path) r

/-- `validate_studyguide(path)` as a report transformer over the queried
directory facts. -/
def validate_studyguide (d : SGDir) (path : String) (r : Report) : Report :=
  if d.pagesExists = false then
    log_error "Missing \x27Pages\x27 directory in studyguide" (some path) r
  else
    let r1 := indexCheck d path r
    let r2 := { r1 with stats :=
      { r1.stats with files_checked := r1.stats.files_checked + d.pagesFiles.length } }
    let res := d.pagesFiles.foldl (sgLoop path) (r2, 0)
    { res.1 with stats :=
      { res.1.stats with valid_files := res.1.stats.valid_files + res.2 } }

/-- The `__main__` wrapper of `validate_structure.py`: the walk either
finishes with the final report, or raises carrying the exception text and
the report state accumulated so far (the report is a module-level global,
so mutations made before the crash survive).  The handler logs exactly one
error; the report is printed either way. -/
def mainValidator : Except (String × Report) Report → Report
  | Except.ok r => r
  | Except.error (msg, r) => log_error ("Validation script crashed: " ++ msg) none r

/-- Characterization of a `Pages` entry that triggers the stray-file
warning: not `index.csv` and its suffix is outside the allow-list. -/
def isStrayFile (f : FileEntry) : Bool :=
  !(f.name == "index.csv") && !(allowedSuffixes.contains f.suffix)

/-- Characterization of a `Pages` entry counted as valid: not `index.csv`
and its suffix is on the allow-list. -/
def isRecognizedFile (f : FileEntry) : Bool :=
  !(f.name == "index.csv") && allowedSuffixes.contains f.suffix

/-- The status/errors invariant of the validator report. -/
def reportInv (r : Report) : Prop := r.status = "failed" ↔ r.errors ≠ []

/-! ## Lemmas -/

lemma applyOp_inv (r : Report) (op : ReportOp) (h : reportInv r) :
    reportInv (applyOp r op) := by
  cases op with
  | logErrorOp m p => simp [applyOp, log_error, reportInv]
  | logWarnOp m p => simpa [applyOp, log_warn, reportInv] using h
  | addFilesChecked n => simpa [applyOp, reportInv] using h
  | addValidFiles n => simpa [applyOp, reportInv] using h

lemma foldl_applyOp_inv (ops : List ReportOp) :
    ∀ r, reportInv r → reportInv (ops.foldl applyOp r) := by
  induction ops with
  | nil => intro r h; exact h
  | cons op rest ih => intro r h; exact ih _ (applyOp_inv r op h)

lemma alookup_setFile_same (p : String) (c : List (List String)) :
    ∀ fs : FS, alookup (setFile fs p c) p = some c := by
  intro fs
  induction fs with
  | nil => simp [setFile, alookup]
  | cons e rest ih =>
    obtain ⟨q, c'⟩ := e
    by_cases h : q = p
    · simp [setFile, h, alookup]
    · simp [setFile, h, alookup, ih]

lemma alookup_setFile_ne (p q : String) (c : List (List String)) (h : q ≠ p) :
    ∀ fs : FS, alookup (setFile fs p c) q = alookup fs q := by
  intro fs
  have hpq : ¬ p = q := fun e => h e.symm
  induction fs with
  | nil => simp [setFile, alookup, hpq]
  | cons e rest ih =>
    obtain ⟨q', c'⟩ := e
    by_cases h' : q' = p
    · subst h'
      simp [setFile, alookup, hpq]
    · simp [setFile, h', alookup, ih]

lemma renderRow_drop (fieldnames : List String) (k v : String) (r : Record)
    (h : k ∉ fieldnames) :
    renderRow fieldnames ((k, v) :: r) = renderRow fieldnames r := by
  unfold renderRow
  apply List.map_congr_left
  intro f hf
  have hne : k ≠ f := fun e => h (e ▸ hf)
  simp [dictGet, alookup, hne]

lemma renderRow_absent (fieldnames : List String) (f : String) (r : Record)
    (h : alookup r f = none) :
    renderRow (f :: fieldnames) r = "" :: renderRow fieldnames r := by
  simp [renderRow, dictGet, h]

lemma lookupGroup_cons_eq (k : String) (xs : List Record) (g : Groups) :
    lookupGroup ((k, xs) :: g) k = xs := by
  simp [lookupGroup, alookup]

lemma lookupGroup_cons_ne (k t : String) (xs : List Record) (g : Groups) (h : ¬ k = t) :
    lookupGroup ((k, xs) :: g) t = lookupGroup g t := by
  simp [lookupGroup, alookup, h]

lemma lookupGroup_nil (t : String) : lookupGroup [] t = [] := rfl

lemma lookupGroup_addToGroup_same (t : String) (x : Record) :
    ∀ g : Groups, lookupGroup (addToGroup g t x) t = lookupGroup g t ++ [x] := by
  intro g
  induction g with
  | nil => simp [addToGroup, lookupGroup_cons_eq, lookupGroup_nil]
  | cons e rest ih =>
    obtain ⟨k, xs⟩ := e
    by_cases h : k = t
    · subst h
      simp [addToGroup, lookupGroup_cons_eq]
    · rw [show addToGroup ((k, xs) :: rest) t x = (k, xs) :: addToGroup rest t x by
        simp [addToGroup, h]]
      rw [lookupGroup_cons_ne k t xs _ h, lookupGroup_cons_ne k t xs rest h]
      exact ih

lemma lookupGroup_addToGroup_ne (t t' : String) (x : Record) (h : t ≠ t') :
    ∀ g : Groups, lookupGroup (addToGroup g t x) t' = lookupGroup g t' := by
  intro g
  induction g with
  | nil =>
    show lookupGroup [(t, [x])] t' = lookupGroup [] t'
    rw [lookupGroup_cons_ne t t' [x] [] h, lookupGroup_nil]
  | cons e rest ih =>
    obtain ⟨k, xs⟩ := e
    by_cases h' : k = t
    · subst h'
      rw [show addToGroup ((k, xs) :: rest) k x = (k, xs ++ [x]) :: rest by
        simp [addToGroup]]
      rw [lookupGroup_cons_ne k t' (xs ++ [x]) rest h,
        lookupGroup_cons_ne k t' xs rest h]
    · rw [show addToGroup ((k, xs) :: rest) t x = (k, xs) :: addToGroup rest t x by
        simp [addToGroup, h']]
      by_cases h2 : k = t'
      · subst h2
        rw [lookupGroup_cons_eq, lookupGroup_cons_eq]
      · rw [lookupGroup_cons_ne k t' xs _ h2, lookupGroup_cons_ne k t' xs rest h2]
        exact ih

lemma lookupGroup_groupFold (valOf : Record → Record) (t : String) (ht : t ≠ "") :
    ∀ (rows : List Record) (g : Groups),
      lookupGroup (groupFold valOf g rows) t =
        lookupGroup g t ++ (rows.filter (fun r => topicOf r == t)).map valOf := by
  intro rows
  induction rows with
  | nil => intro g; simp [groupFold]
  | cons r rs ih =>
    intro g
    by_cases h0 : topicOf r = ""
    · have hft : ¬ ("" = t) := fun e => ht e.symm
      simp [groupFold, h0, List.filter_cons, hft, ih]
    · by_cases he : topicOf r = t
      · subst he
        simp [groupFold, h0, List.filter_cons, ih, lookupGroup_addToGroup_same]
      · simp [groupFold, h0, List.filter_cons, he, ih,
          lookupGroup_addToGroup_ne (topicOf r) t (valOf r) he]

lemma lookupGroup_groupFold_empty (valOf : Record → Record) :
    ∀ (rows : List Record) (g : Groups),
      lookupGroup (groupFold valOf g rows) "" = lookupGroup g "" := by
  intro rows
  induction rows with
  | nil => intro g; simp [groupFold]
  | cons r rs ih =>
    intro g
    by_cases h0 : topicOf r = ""
    · simp [groupFold, h0, ih]
    · simp [groupFold, h0, ih,
        lookupGroup_addToGroup_ne (topicOf r) "" (valOf r) h0]

lemma lookupGroup_studyGroups (sc fo kt : List Record) (t : String) (ht : t ≠ "") :
    lookupGroup (studyGroups sc fo kt) t =
      (sc.filter (fun r => topicOf r == t)).map mapStudyItem ++
      ((fo.filter (fun r => topicOf r == t)).map mapFormulaItem ++
        (kt.filter (fun r => topicOf r == t)).map mapKeyTermItem) := by
  unfold studyGroups
  rw [lookupGroup_groupFold mapKeyTermItem t ht,
    lookupGroup_groupFold mapFormulaItem t ht,
    lookupGroup_groupFold mapStudyItem t ht]
  simp [lookupGroup, alookup, List.append_assoc]

lemma mapStudyItem_keys (r : Record) :
    (mapStudyItem r).map Prod.fst =
      ["content_id", "content_type", "title", "content", "url", "order_index"] := rfl

lemma mapFormulaItem_keys (r : Record) :
    (mapFormulaItem r).map Prod.fst =
      ["content_id", "content_type", "title", "content", "url", "order_index"] := rfl

lemma mapKeyTermItem_keys (r : Record) :
    (mapKeyTermItem r).map Prod.fst =
      ["content_id", "content_type", "title", "content", "url", "order_index"] := rfl

lemma hasKey_of_keys (item : Record)
    (h : item.map Prod.fst =
      ["content_id", "content_type", "title", "content", "url", "order_index"]) :
    hasKey item "topic_name" = false := by
  match item, h with
  | [(a, v1), (b, v2), (c, v3), (d, v4), (e, v5), (f, v6)], h =>
    simp at h
    obtain ⟨h1, h2, h3, h4, h5, h6⟩ := h
    subst h1; subst h2; subst h3; subst h4; subst h5; subst h6
    simp [hasKey, alookup]

lemma studyGroups_keys (sc fo kt : List Record) (t : String) :
    ∀ item ∈ lookupGroup (studyGroups sc fo kt) t,
      item.map Prod.fst =
        ["content_id", "content_type", "title", "content", "url", "order_index"] := by
  by_cases ht : t = ""
  · subst ht
    unfold studyGroups
    rw [lookupGroup_groupFold_empty, lookupGroup_groupFold_empty,
      lookupGroup_groupFold_empty]
    simp [lookupGroup, alookup]
  · rw [lookupGroup_studyGroups sc fo kt t ht]
    intro item hmem
    rcases List.mem_append.mp hmem with h | h
    · obtain ⟨r, _, hr⟩ := List.mem_map.mp h
      exact hr ▸ mapStudyItem_keys r
    · rcases List.mem_append.mp h with h' | h'
      · obtain ⟨r, _, hr⟩ := List.mem_map.mp h'
        exact hr ▸ mapFormulaItem_keys r
      · obtain ⟨r, _, hr⟩ := List.mem_map.mp h'
        exact hr ▸ mapKeyTermItem_keys r

lemma mem_create_master_indices (subjects : List (String × String)) :
    ∀ (m : List (String × List (String × String))) (row : IndexRow),
      row ∈ create_master_indices subjects m →
      row.topic_folder = folderSlug row.topic_name ∧
      row.subject_name = (alookup subjects row.subject_key).getD row.subject_key := by
  intro m
  induction m with
  | nil => intro row h; simp [create_master_indices] at h
  | cons e rest ih =>
    obtain ⟨sk, topics⟩ := e
    intro row h
    rw [create_master_indices] at h
    rcases List.mem_append.mp h with h' | h'
    · obtain ⟨p, _, heq⟩ := List.mem_map.mp h'
      rw [← heq]
      exact ⟨rfl, rfl⟩
    · exact ih row h'

lemma sgLoop_foldl_spec (path : String) :
    ∀ (files : List FileEntry) (r : Report) (n : Nat),
      (files.foldl (sgLoop path) (r, n)).1.errors = r.errors ∧
      (files.foldl (sgLoop path) (r, n)).1.status = r.status ∧
      (files.foldl (sgLoop path) (r, n)).1.stats = r.stats ∧
      (files.foldl (sgLoop path) (r, n)).1.warnings.length =
        r.warnings.length + (files.filter isStrayFile).length ∧
      (files.foldl (sgLoop path) (r, n)).2 =
        n + (files.filter isRecognizedFile).length := by
  intro files
  induction files with
  | nil => intro r n; simp
  | cons f fs ih =>
    intro r n
    by_cases h1 : f.name = "index.csv"
    · have hs : isStrayFile f = false := by simp [isStrayFile, h1]
      have hr : isRecognizedFile f = false := by simp [isRecognizedFile, h1]
      simpa [sgLoop, h1, List.filter_cons, hs, hr] using ih r n
    · by_cases h2 : allowedSuffixes.contains f.suffix
      · have hmem : f.suffix ∈ allowedSuffixes := by simpa using h2
        have hs : isStrayFile f = false := by simp [isStrayFile, hmem]
        have hr : isRecognizedFile f = true := by simp [isRecognizedFile, h1, hmem]
        have step : List.foldl (sgLoop path) (r, n) (f :: fs) =
            List.foldl (sgLoop path) (r, n + 1) fs := by
          simp [List.foldl_cons, sgLoop, h1, hmem]
        rw [step]
        obtain ⟨e1, e2, e3, e4, e5⟩ := ih r (n + 1)
        refine ⟨e1, e2, e3, ?_, ?_⟩
        · rw [e4]; simp [List.filter_cons, hs]
        · rw [e5]; simp [List.filter_cons, hr]; omega
      · have hmem : f.suffix ∉ allowedSuffixes := by simpa using h2
        have hs : isStrayFile f = true := by simp [isStrayFile, h1, hmem]
        have hr : isRecognizedFile f = false := by simp [isRecognizedFile, hmem]
        have step : List.foldl (sgLoop path) (r, n) (f :: fs) =
            List.foldl (sgLoop path)
              (log_warn ("Stray or unknown file type: " ++ f.name)
                (some (path ++ "/Pages/" ++ f.name)) r, n) fs := by
          simp [List.foldl_cons, sgLoop, h1, hmem]
        rw [step]
        obtain ⟨e1, e2, e3, e4, e5⟩ :=
          ih (log_warn ("Stray or unknown file type: " ++ f.name)
            (some (path ++ "/Pages/" ++ f.name)) r) n
        refine ⟨?_, ?_, ?_, ?_, ?_⟩
        · rw [e1]; simp [log_warn]
        · rw [e2]; simp [log_warn]
        · rw [e3]; simp [log_warn]
        · rw [e4]; simp [log_warn, List.filter_cons, hs]; omega
        · rw [e5]; simp [List.filter_cons, hr]

lemma indexCheck_warnings (d : SGDir) (path : String) (r : Report) :
    (indexCheck d path r).warnings = r.warnings := by
  unfold indexCheck
  split
  · rfl
  · split
    · rfl
    · simp [log_error]

lemma indexCheck_stats (d : SGDir) (path : String) (r : Report) :
    (indexCheck d path r).stats = r.stats := by
  unfold indexCheck
  split
  · rfl
  · split
    · rfl
    · simp [log_error]

lemma validate_studyguide_spec (d : SGDir) (path : String) (r : Report)
    (h : d.pagesExists = true) :
    (validate_studyguide d path r).errors = (indexCheck d path r).errors ∧
    (validate_studyguide d path r).warnings.length =
      r.warnings.length + (d.pagesFiles.filter isStrayFile).length ∧
    (validate_studyguide d path r).stats.files_checked =
      r.stats.files_checked + d.pagesFiles.length ∧
    (validate_studyguide d path r).stats.valid_files =
      r.stats.valid_files + (d.pagesFiles.filter isRecognizedFile).length := by
  have hne : ¬ (d.pagesExists = false) := by simp [h]
  set r1 := indexCheck d path r with hr1
  set r2 : Report := { r1 with stats :=
    { r1.stats with files_checked := r1.stats.files_checked + d.pagesFiles.length } }
    with hr2
  obtain ⟨e1, e2, e3, e4, e5⟩ := sgLoop_foldl_spec path d.pagesFiles r2 0
  have hval : validate_studyguide d path r =
      { (d.pagesFiles.foldl (sgLoop path) (r2, 0)).1 with stats :=
        { (d.pagesFiles.foldl (sgLoop path) (r2, 0)).1.stats with valid_files :=
          (d.pagesFiles.foldl (sgLoop path) (r2, 0)).1.stats.valid_files +
            (d.pagesFiles.foldl (sgLoop path) (r2, 0)).2 } } := by
    rw [validate_studyguide, if_neg hne]
  rw [hval]
  have hw : r1.warnings = r.warnings := hr1 ▸ indexCheck_warnings d path r
  have hst : r1.stats = r.stats := hr1 ▸ indexCheck_stats d path r
  refine ⟨?_, ?_, ?_, ?_⟩
  · simpa using e1
  · simpa [hw] using e4
  · simp [e3, hst]
  · simp [e3, e5, hst]

/-! ## Claim theorems -/

/-- **C6**: for every run of the validator, the report's `status` is
`"failed"` iff at least one ERROR entry was recorded; warnings and stats
increments never change this.  Stated over an arbitrary sequence of
report-mutating operations applied to the initial report. -/
theorem C6_status_iff_errors (ops : List ReportOp) :
    ((ops.foldl applyOp initialReport).status = "failed") ↔
      (ops.foldl applyOp initialReport).errors ≠ [] :=
  foldl_applyOp_inv ops initialReport (by rw [reportInv]; decide)

/-- **C9**: any unexpected exception in the validation walk is caught at
the outermost entry point and converted into exactly one additional ERROR
entry; the report is always fully constructed (a normally-finished walk is
passed through unchanged, and a crash leaves warnings and stats intact
while appending exactly one ERROR and failing the status). -/
theorem C9_crash_handling (msg : String) (r : Report) :
    mainValidator (Except.ok r) = r ∧
    (mainValidator (Except.error (msg, r))).errors.length = r.errors.length + 1 ∧
    (∃ entry, (mainValidator (Except.error (msg, r))).errors = r.errors ++ [entry]) ∧
    (mainValidator (Except.error (msg, r))).status = "failed" ∧
    (mainValidator (Except.error (msg, r))).warnings = r.warnings ∧
    (mainValidator (Except.error (msg, r))).stats = r.stats := by
  refine ⟨rfl, ?_, ⟨_, rfl⟩, rfl, rfl, rfl⟩
  simp [mainValidator, log_error]

/-- **C4**: `read_excel_sheet` never raises past its boundary: an
unopenable workbook (the `none` case of the modelled `try`) and a sheet
name absent from the workbook both yield the empty list, so callers always
receive a (possibly empty) sequence of records. -/
theorem C4_sheet_reader_total (wb : Workbook) (sheetName : String)
    (h : alookup wb.sheets sheetName = none) :
    read_excel_sheet none sheetName = [] ∧
    read_excel_sheet (some wb) sheetName = [] := by
  constructor
  · rfl
  · simp [read_excel_sheet, h]

/-- Witness for C4 at a concrete workbook that lacks the requested
sheet. -/
theorem C4_witness :
    read_excel_sheet none "Missing" = [] ∧
    read_excel_sheet
      (some ⟨[("Quiz_Questions", ⟨[some "topic_id"], [[some "t1"]]⟩)]⟩) "Missing" = [] :=
  C4_sheet_reader_total ⟨[("Quiz_Questions", ⟨[some "topic_id"], [[some "t1"]]⟩)]⟩
    "Missing" (by decide)

/-- **C5**: `write_csv` leaves the filesystem untouched on an empty record
list (no file is created); otherwise the rendered CSV replaces whatever
was at the path, other paths are untouched, record fields outside the
given field order are ignored, and fields in the order but absent on a
record are written as the empty string. -/
theorem C5_write_csv (fs : FS) (path : String) (data : List Record)
    (fieldnames : List String) :
    (write_csv fs path [] fieldnames = fs) ∧
    (data ≠ [] →
      alookup (write_csv fs path data fieldnames) path = some (renderCsv fieldnames data)) ∧
    (∀ q, q ≠ path →
      alookup (write_csv fs path data fieldnames) q = alookup fs q) ∧
    (∀ k v r, k ∉ fieldnames →
      renderRow fieldnames ((k, v) :: r) = renderRow fieldnames r) ∧
    (∀ r f, alookup r f = none →
      renderRow (f :: fieldnames) r = "" :: renderRow fieldnames r) := by
  refine ⟨by simp [write_csv], ?_, ?_, ?_, ?_⟩
  · intro hne
    simp [write_csv, hne, alookup_setFile_same]
  · intro q hq
    by_cases hd : data = []
    · simp [write_csv, hd]
    · simp [write_csv, hd, alookup_setFile_ne path q _ hq]
  · intro k v r hk
    exact renderRow_drop fieldnames k v r hk
  · intro r f hf
    exact renderRow_absent fieldnames f r hf

/-- Witness for C5 at concrete filesystem states: an empty write leaves
the filesystem alone, a non-empty write overwrites the stale file and
leaves the other path alone, an undeclared field is dropped, and a missing
declared field renders as the empty string. -/
theorem C5_witness :
    (write_csv [("old.csv", [["h"]])] "p.csv" [] ["x"] = [("old.csv", [["h"]])]) ∧
    (alookup (write_csv [("p.csv", [["stale"]])] "p.csv" [[("x", "1"), ("extra", "z")]] ["x"])
      "p.csv" = some (renderCsv ["x"] [[("x", "1"), ("extra", "z")]])) ∧
    (alookup (write_csv [("q.csv", [["keep"]])] "p.csv" [[("x", "1")]] ["x"]) "q.csv"
      = alookup [("q.csv", [["keep"]])] "q.csv") ∧
    (renderRow ["x"] [("extra", "z"), ("x", "1")] = renderRow ["x"] [("x", "1")]) ∧
    (renderRow ["hint", "x"] [("x", "1")] = "" :: renderRow ["x"] [("x", "1")]) :=
  ⟨(C5_write_csv [("old.csv", [["h"]])] "p.csv" [] ["x"]).1,
   (C5_write_csv [("p.csv", [["stale"]])] "p.csv" [[("x", "1"), ("extra", "z")]] ["x"]).2.1
     (by decide),
   (C5_write_csv [("q.csv", [["keep"]])] "p.csv" [[("x", "1")]] ["x"]).2.2.1 "q.csv" (by decide),
   (C5_write_csv [] "p.csv" [] ["x"]).2.2.2.1 "extra" "z" [("x", "1")] (by decide),
   (C5_write_csv [] "p.csv" [] ["x"]).2.2.2.2 [("x", "1")] "hint" (by decide)⟩

/-- **C1** (counterexample): the fixed projection used by the quiz pass
has 12 fields, not 11, so the claim's field count is wrong (its field
list, which matches the code, itself has 12 entries). -/
theorem C1_counterexample :
    quizFieldnames.length = 12 ∧ ¬ (quizFieldnames.length = 11) := by
  decide

/-- **C1** (amended): each quiz group is projected onto the fixed
12-field projection `question_id, topic_id, question_text, option_a,
option_b, option_c, option_d, correct_answer, explanation, difficulty,
hint, xp_reward`, in that order; the per-topic CSV contains exactly the
rows whose `topic_id` matches, and a field present on a record but
outside this set is dropped at write time. -/
theorem C1_quiz_projection (quizData : List Record) (t k v : String) (q : Record)
    (ht : t ≠ "") (hk : k ∉ quizFieldnames) :
    quizFieldnames =
      ["question_id", "topic_id", "question_text", "option_a", "option_b",
       "option_c", "option_d", "correct_answer", "explanation", "difficulty",
       "hint", "xp_reward"] ∧
    quizFieldnames.length = 12 ∧
    quizCsvFor quizData t =
      quizFieldnames ::
        (quizData.filter (fun q2 => topicOf q2 == t)).map (renderRow quizFieldnames) ∧
    renderRow quizFieldnames ((k, v) :: q) = renderRow quizFieldnames q := by
  refine ⟨rfl, rfl, ?_, renderRow_drop quizFieldnames k v q hk⟩
  unfold quizCsvFor quizGroups
  rw [lookupGroup_groupFold id t ht]
  simp [renderCsv, lookupGroup_nil]

/-- Witness for the amended C1 at a concrete two-topic data set in which
one record carries an undeclared field. -/
theorem C1_witness :
    quizFieldnames =
      ["question_id", "topic_id", "question_text", "option_a", "option_b",
       "option_c", "option_d", "correct_answer", "explanation", "difficulty",
       "hint", "xp_reward"] ∧
    quizFieldnames.length = 12 ∧
    quizCsvFor [[("question_id", "q1"), ("topic_id", "t1")],
                [("question_id", "q2"), ("topic_id", "t2")],
                [("question_id", "q3"), ("topic_id", "t1"), ("stray", "s")]] "t1" =
      quizFieldnames ::
        (([[("question_id", "q1"), ("topic_id", "t1")],
           [("question_id", "q2"), ("topic_id", "t2")],
           [("question_id", "q3"), ("topic_id", "t1"), ("stray", "s")]].filter
            (fun q2 => topicOf q2 == "t1")).map (renderRow quizFieldnames)) ∧
    renderRow quizFieldnames (("stray", "s") :: [("question_id", "q3")]) =
      renderRow quizFieldnames [("question_id", "q3")] :=
  C1_quiz_projection
    [[("question_id", "q1"), ("topic_id", "t1")],
     [("question_id", "q2"), ("topic_id", "t2")],
     [("question_id", "q3"), ("topic_id", "t1"), ("stray", "s")]]
    "t1" "stray" "s" [("question_id", "q3")] (by decide) (by decide)

/-- **C2**: the per-topic study-content list is the strict concatenation
of all mapped `Study_Content` rows with that `topic_id`, then all mapped
`Formulas` rows, then all mapped `Key_Terms` rows, each in source order
(`List.filter` preserves it); no sorting by `order_index` occurs. -/
theorem C2_study_concat (sc fo kt : List Record) (t : String) (ht : t ≠ "") :
    lookupGroup (studyGroups sc fo kt) t =
      (sc.filter (fun r => topicOf r == t)).map mapStudyItem ++
      ((fo.filter (fun r => topicOf r == t)).map mapFormulaItem ++
        (kt.filter (fun r => topicOf r == t)).map mapKeyTermItem) :=
  lookupGroup_studyGroups sc fo kt t ht

/-- Witness for C2 at the spec's concrete example: two Study_Content
rows, one Formulas row and one Key_Terms row, all for topic `t1`, yield
exactly four items in concatenation order with the expected
`content_type`s. -/
theorem C2_witness :
    lookupGroup
      (studyGroups
        [[("topic_id", "t1"), ("content_id", "s1"), ("content_title", "A")],
         [("topic_id", "t1"), ("content_id", "s2"), ("content_title", "B")]]
        [[("topic_id", "t1"), ("formula_id", "f1"), ("formula_label", "F")]]
        [[("topic_id", "t1"), ("term_id", "k1"), ("term", "K")]]) "t1" =
      [[("content_id", "s1"), ("content_type", "text"), ("title", "A"),
        ("content", ""), ("url", ""), ("order_index", "")],
       [("content_id", "s2"), ("content_type", "text"), ("title", "B"),
        ("content", ""), ("url", ""), ("order_index", "")],
       [("content_id", "f1"), ("content_type", "formula"), ("title", "F"),
        ("content", ""), ("url", ""), ("order_index", "")],
       [("content_id", "k1"), ("content_type", "key_term"), ("title", "K"),
        ("content", ""), ("url", ""), ("order_index", "")]] :=
  (C2_study_concat
    [[("topic_id", "t1"), ("content_id", "s1"), ("content_title", "A")],
     [("topic_id", "t1"), ("content_id", "s2"), ("content_title", "B")]]
    [[("topic_id", "t1"), ("formula_id", "f1"), ("formula_label", "F")]]
    [[("topic_id", "t1"), ("term_id", "k1"), ("term", "K")]]
    "t1" (by decide)).trans (by decide)

/-- **C10**: in the study-content pass every mapped item carries exactly
the six keys `content_id, content_type, title, content, url, order_index`,
so the branch reading `topic_name` from the first item is unreachable and
the output topic folder is always derived from the `topic_id` (hyphens
and underscores to spaces, title-cased, then slugified). -/
theorem C10_folder_from_topic_id (sc fo kt : List Record) (t : String) :
    (∀ item ∈ lookupGroup (studyGroups sc fo kt) t,
      item.map Prod.fst =
        ["content_id", "content_type", "title", "content", "url", "order_index"]) ∧
    studyTopicFolder (lookupGroup (studyGroups sc fo kt) t) t =
      folderSlug (pyTitle (replaceChar (replaceChar t '-' " ") '_' " ")) := by
  refine ⟨studyGroups_keys sc fo kt t, ?_⟩
  cases hg : lookupGroup (studyGroups sc fo kt) t with
  | nil => simp [studyTopicFolder]
  | cons first rest =>
    have hmem : first ∈ lookupGroup (studyGroups sc fo kt) t := by
      rw [hg]; exact List.mem_cons_self first rest
    have hkeys := studyGroups_keys sc fo kt t first hmem
    have hnk : hasKey first "topic_name" = false := hasKey_of_keys first hkeys
    simp [studyTopicFolder, hnk]

/-- **C3**: every master-index row has `topic_folder` equal to the
topic name with spaces replaced by underscores and apostrophes removed,
and `subject_name` equal to the subject lookup with fallback to the
subject key; Topics rows missing any of `subject_key`, `topic_id`,
`topic_name` are skipped by the mapping builder. -/
theorem C3_master_index_rows :
    (∀ (subjects : List (String × String)) (m : List (String × List (String × String)))
        (row : IndexRow), row ∈ create_master_indices subjects m →
      row.topic_folder = folderSlug row.topic_name ∧
      row.subject_name = (alookup subjects row.subject_key).getD row.subject_key) ∧
    (∀ (m : List (String × List (String × String))) (topic : Record),
      hasKey topic "subject_key" = false ∨ hasKey topic "topic_id" = false ∨
        hasKey topic "topic_name" = false →
      topicStep m topic = m) := by
  constructor
  · intro subjects m row h
    exact mem_create_master_indices subjects m row h
  · intro m topic h
    rcases h with h | h | h <;> simp [topicStep, h]

/-- Witness for C3 at a concrete master mapping (one subject, one topic)
and a concrete Topics row that lacks `subject_key`. -/
theorem C3_witness :
    ((⟨"phy", "Physics", "phy-t1", "Laws of Motion", "Laws_of_Motion"⟩ : IndexRow).topic_folder =
        folderSlug "Laws of Motion" ∧
      (⟨"phy", "Physics", "phy-t1", "Laws of Motion", "Laws_of_Motion"⟩ : IndexRow).subject_name =
        (alookup [("phy", "Physics")] "phy").getD "phy") ∧
    topicStep [] [("topic_id", "x")] = [] :=
  ⟨C3_master_index_rows.1 [("phy", "Physics")] [("phy", [("phy-t1", "Laws of Motion")])]
      ⟨"phy", "Physics", "phy-t1", "Laws of Motion", "Laws_of_Motion"⟩ (by decide),
   C3_master_index_rows.2 [] [("topic_id", "x")] (Or.inl (by decide))⟩

/-- **C7**: when `Pages` is missing, `validate_studyguide` logs a hard
ERROR and returns at once (the result is exactly the error-logged report,
so no stats, warnings or further checks happen); when `Pages` exists, an
`index.csv` ERROR is recorded if and only if the manifest is found
neither directly under studyguide nor under studyguide/Pages. -/
theorem C7_studyguide_pages_and_index (d : SGDir) (path : String) (r : Report) :
    (d.pagesExists = false →
      validate_studyguide d path r =
        log_error "Missing \x27Pages\x27 directory in studyguide" (some path) r) ∧
    (d.pagesExists = true →
      (validate_studyguide d path r).errors.length =
        r.errors.length +
          (if d.indexAtRoot = false ∧ d.indexInPages = false then 1 else 0) ∧
      ((validate_studyguide d path r).errors = r.errors ↔
        (d.indexAtRoot = true ∨ d.indexInPages = true))) := by
  constructor
  · intro h
    rw [validate_studyguide, if_pos h]
  · intro h
    have herr := (validate_studyguide_spec d path r h).1
    rw [herr]
    cases hA : d.indexAtRoot with
    | true => simp [indexCheck, hA]
    | false =>
      cases hB : d.indexInPages with
      | true => simp [indexCheck, hB]
      | false =>
        refine ⟨by simp [indexCheck, hA, hB, log_error], ?_, ?_⟩
        · intro he
          exfalso
          have hlen := congrArg List.length he
          simp [indexCheck, hA, hB, log_error] at hlen
        · intro hor
          exfalso
          rcases hor with h' | h' <;> simp_all

/-- Witness for C7: a missing `Pages` directory yields exactly the
error-logged report; with `Pages` present, a missing manifest adds one
ERROR and a manifest directly under studyguide leaves errors unchanged. -/
theorem C7_witness :
    (validate_studyguide ⟨false, false, false, []⟩ "P" initialReport =
      log_error "Missing \x27Pages\x27 directory in studyguide" (some "P") initialReport) ∧
    ((validate_studyguide ⟨true, false, false, []⟩ "P" initialReport).errors.length =
      initialReport.errors.length +
        (if (false : Bool) = false ∧ (false : Bool) = false then 1 else 0)) ∧
    ((validate_studyguide ⟨true, true, false, []⟩ "P" initialReport).errors =
        initialReport.errors ↔ ((true : Bool) = true ∨ (false : Bool) = true)) :=
  ⟨(C7_studyguide_pages_and_index ⟨false, false, false, []⟩ "P" initialReport).1 rfl,
   ((C7_studyguide_pages_and_index ⟨true, false, false, []⟩ "P" initialReport).2 rfl).1,
   ((C7_studyguide_pages_and_index ⟨true, true, false, []⟩ "P" initialReport).2 rfl).2⟩

/-- **C8**: with `Pages` present, `files_checked` grows by the total
number of entries found under `Pages` regardless of classification;
`valid_files` grows by the number of non-`index.csv` entries with an
allowed extension; each non-`index.csv` entry with a disallowed extension
adds exactly one WARNING; and the number of ERROR entries is independent
of the file classification (it depends only on the manifest check). -/
theorem C8_pages_classification (d : SGDir) (path : String) (r : Report)
    (h : d.pagesExists = true) :
    (validate_studyguide d path r).stats.files_checked =
      r.stats.files_checked + d.pagesFiles.length ∧
    (validate_studyguide d path r).stats.valid_files =
      r.stats.valid_files + (d.pagesFiles.filter isRecognizedFile).length ∧
    (validate_studyguide d path r).warnings.length =
      r.warnings.length + (d.pagesFiles.filter isStrayFile).length ∧
    (validate_studyguide d path r).errors.length =
      r.errors.length +
        (if d.indexAtRoot = false ∧ d.indexInPages = false then 1 else 0) := by
  obtain ⟨e1, e2, e3, e4⟩ := validate_studyguide_spec d path r h
  refine ⟨e3, e4, e2, ?_⟩
  rw [e1]
  cases hA : d.indexAtRoot with
  | true => simp [indexCheck, hA]
  | false =>
    cases hB : d.indexInPages with
    | true => simp [indexCheck, hB]
    | false => simp [indexCheck, hA, hB, log_error]

/-- Witness for C8 at a concrete `Pages` listing holding the manifest, a
recognized page file and a stray file: three files checked, one counted
valid, one warning, no error. -/
theorem C8_witness :
    (validate_studyguide
        ⟨true, true, false, [⟨"index.csv", ".csv"⟩, ⟨"Page1.pdf", ".pdf"⟩, ⟨"notes.txt", ".txt"⟩]⟩
        "P" initialReport).stats.files_checked =
      initialReport.stats.files_checked +
        ([⟨"index.csv", ".csv"⟩, ⟨"Page1.pdf", ".pdf"⟩,
          (⟨"notes.txt", ".txt"⟩ : FileEntry)] : List FileEntry).length ∧
    (validate_studyguide
        ⟨true, true, false, [⟨"index.csv", ".csv"⟩, ⟨"Page1.pdf", ".pdf"⟩, ⟨"notes.txt", ".txt"⟩]⟩
        "P" initialReport).stats.valid_files =
      initialReport.stats.valid_files +
        (([⟨"index.csv", ".csv"⟩, ⟨"Page1.pdf", ".pdf"⟩,
          (⟨"notes.txt", ".txt"⟩ : FileEntry)] : List FileEntry).filter isRecognizedFile).length ∧
    (validate_studyguide
        ⟨true, true, false, [⟨"index.csv", ".csv"⟩, ⟨"Page1.pdf", ".pdf"⟩, ⟨"notes.txt", ".txt"⟩]⟩
        "P" initialReport).warnings.length =
      initialReport.warnings.length +
        (([⟨"index.csv", ".csv"⟩, ⟨"Page1.pdf", ".pdf"⟩,
          (⟨"notes.txt", ".txt"⟩ : FileEntry)] : List FileEntry).filter isStrayFile).length ∧
    (validate_studyguide
        ⟨true, true, false, [⟨"index.csv", ".csv"⟩, ⟨"Page1.pdf", ".pdf"⟩, ⟨"notes.txt", ".txt"⟩]⟩
        "P" initialReport).errors.length =
      initialReport.errors.length +
        (if (true : Bool) = false ∧ (false : Bool) = false then 1 else 0) :=
  C8_pages_classification
    ⟨true, true, false, [⟨"index.csv", ".csv"⟩, ⟨"Page1.pdf", ".pdf"⟩, ⟨"notes.txt", ".txt"⟩]⟩
    "P" initialReport rfl

/-- Witness for C10: a concrete study-content row whose mapped item has
exactly the six declared keys, and the folder for topic `phy-t1` derived
from the topic id. -/
theorem C10_witness :
    ([("content_id", "c1"), ("content_type", "text"), ("title", ""),
      ("content", ""), ("url", ""), ("order_index", "")] : Record).map Prod.fst =
      ["content_id", "content_type", "title", "content", "url", "order_index"] ∧
    studyTopicFolder
      (lookupGroup (studyGroups [[("topic_id", "phy-t1"), ("content_id", "c1")]] [] [])
        "phy-t1") "phy-t1" =
      folderSlug (pyTitle (replaceChar (replaceChar "phy-t1" '-' " ") '_' " ")) :=
  ⟨(C10_folder_from_topic_id [[("topic_id", "phy-t1"), ("content_id", "c1")]] [] []
      "phy-t1").1
    [("content_id", "c1"), ("content_type", "text"), ("title", ""), ("content", ""),
      ("url", ""), ("order_index", "")] (by decide),
   (C10_folder_from_topic_id [[("topic_id", "phy-t1"), ("content_id", "c1")]] [] []
      "phy-t1").2⟩

end HarshiApp
